import Mathlib

/-!
Shallow embedding of the `rgavideoconvert` element
(`src/plugins/gstrgavideoconvert.c`): the GstVideoFormat → RGA surface
format table, the RGA descriptor construction (`gst_set_rga_info`,
`gst_rga_info_from_video_frame`), the caps negotiation
(`gst_rga_video_convert_transform_caps`), the setup check
(`gst_rga_video_convert_set_info`) and the per-frame conversion
(`gst_rga_video_convert_transform_frame`).  The hardware blit itself and
the GStreamer buffer machinery are external; frames and caps are modelled
by the shape of the data the code reads from them.
-/

/-- Logical pixel formats.  The first fifteen constructors are the declared
supported set of the pad templates (`VIDEO_SRC_CAPS` / `VIDEO_SINK_CAPS`,
lines 76-94); the last three are representative formats outside that set. -/
inductive GstVideoFormat where
  | I420 | YV12 | NV12 | NV21 | Y42B | NV16 | NV61
  | RGB16 | RGB15 | BGR | RGB | BGRA | RGBA | BGRx | RGBx
  | AYUV | GRAY8 | UYVY
  deriving DecidableEq, Repr, Fintype

/-- RGA hardware surface format codes, with the `UNKNOWN` sentinel. -/
inductive RgaSURF_FORMAT where
  | YCbCr_420_P | YCrCb_420_P | YCbCr_420_SP | YCrCb_420_SP
  | YCbCr_420_SP_10B
  | YCbCr_422_P | YCrCb_422_P | YCbCr_422_SP | YCrCb_422_SP
  | RGB_565 | RGBA_5551 | BGR_888 | RGB_888
  | BGRA_8888 | RGBA_8888 | BGRX_8888 | RGBX_8888
  | UNKNOWN
  deriving DecidableEq, Repr, Fintype

/-- Format table of `gst_gst_format_to_rga_format` (lines 178-201), built
without `HAVE_NV12_10LE40` (the repository defines no such config flag):
the switch falls through to `RK_FORMAT_UNKNOWN` for every other input. -/
def gst_gst_format_to_rga_format : GstVideoFormat → RgaSURF_FORMAT
  | .I420 => .YCbCr_420_P
  | .YV12 => .YCrCb_420_P
  | .NV12 => .YCbCr_420_SP
  | .NV21 => .YCrCb_420_SP
  | .Y42B => .YCbCr_422_P
  | .NV16 => .YCbCr_422_SP
  | .NV61 => .YCrCb_422_SP
  | .RGB16 => .RGB_565
  | .RGB15 => .RGBA_5551
  | .BGR => .BGR_888
  | .RGB => .RGB_888
  | .BGRA => .BGRA_8888
  | .RGBA => .RGBA_8888
  | .BGRx => .BGRX_8888
  | .RGBx => .RGBX_8888
  | _ => .UNKNOWN

/-- The declared supported logical formats (the pad templates' format list). -/
def supportedFormats : List GstVideoFormat :=
  [.I420, .YV12, .NV12, .NV21, .Y42B, .NV16, .NV61,
   .RGB16, .RGB15, .BGR, .RGB, .BGRA, .RGBA, .BGRx, .RGBx]

/-- Rectangle filled by `rga_set_rect` (field order of the call at line 247:
x, y, width, height, wstride, hstride, format). -/
structure rga_rect_t where
  xoffset : Nat
  yoffset : Nat
  width : Nat
  height : Nat
  wstride : Nat
  hstride : Nat
  format : RgaSURF_FORMAT
  deriving DecidableEq, Repr

/-- The fields of `rga_info_t` the plugin touches.  `virAddr` is `none` for
a NULL pointer. -/
structure rga_info_t where
  fd : Int
  virAddr : Option Nat
  mmuFlag : Nat
  rect : rga_rect_t
  core : Nat
  deriving DecidableEq, Repr

/-- Zero initialisation `rga_info_t info = {0,}` (lines 427-432).  The
zero rect carries surface-format code 0; its value is irrelevant because a
successful build overwrites every rect field. -/
def rga_info_zero : rga_info_t :=
  { fd := 0, virAddr := none, mmuFlag := 0,
    rect := ⟨0, 0, 0, 0, 0, 0, .RGBA_8888⟩, core := 0 }

/-- The format switch at the head of `gst_set_rga_info` (lines 208-240):
pixel byte width, and whether the format is in the YUV group whose case
also applies the even alignment (`width &= ~1; height &= ~1`).  `none` is
the `default:` branch returning FALSE. -/
def rgaFormatClass : RgaSURF_FORMAT → Option (Nat × Bool)
  | .RGBX_8888 | .BGRX_8888 | .RGBA_8888 | .BGRA_8888 => some (4, false)
  | .RGB_888 | .BGR_888 => some (3, false)
  | .RGBA_5551 | .RGB_565 => some (2, false)
  | .YCbCr_420_SP_10B
  | .YCbCr_422_SP | .YCrCb_422_SP | .YCbCr_422_P | .YCrCb_422_P
  | .YCbCr_420_SP | .YCrCb_420_SP | .YCbCr_420_P | .YCrCb_420_P =>
      some (1, true)
  | .UNKNOWN => none

/-- Embedding of `gst_set_rga_info` (lines 203-249).  `w - w % 2` is the
value of `w &= ~1` on an unsigned int (clearing bit 0).  Returns `none`
where the C returns FALSE, in which case the C leaves `info` unwritten. -/
def gst_set_rga_info (info : rga_info_t) (format : RgaSURF_FORMAT)
    (width height hstride vstride : Nat) : Option rga_info_t :=
  match rgaFormatClass format with
  | none => none
  | some (pixel_stride, yuv) =>
    let width := if yuv then width - width % 2 else width
    let height := if yuv then height - height % 2 else height
    if info.fd < 0 ∧ info.virAddr = none then none
    else
      let hstride := if hstride / pixel_stride ≥ width
                     then hstride / pixel_stride else hstride
      some { info with
             mmuFlag := 1,
             rect := ⟨0, 0, width, height, hstride, vstride, format⟩ }

/-- One memory block of a buffer, with what the plugin queries of it:
whether it is dmabuf memory, its offset, and the fd it exports. -/
structure GstMemory where
  is_dmabuf : Bool
  offset : Nat
  dmabuf_fd : Int
  deriving DecidableEq, Repr

/-- The shape of a `GstVideoFrame` the plugin reads: format, geometry,
plane-0 stride, byte offset of plane 1 (read only when there is more than
one plane), the buffer's memory blocks, and the outcome of a
`gst_buffer_map` on the buffer (`map_ok` false models a buffer that cannot
be host-mapped, leaving `mapInfo.data` NULL). -/
structure GstVideoFrame where
  format : GstVideoFormat
  width : Nat
  height : Nat
  n_planes : Nat
  stride0 : Nat
  plane_offset1 : Nat
  memories : List GstMemory
  map_ok : Bool
  map_addr : Nat
  deriving DecidableEq, Repr

/-- How a build can fail: `divByZero` marks the unguarded
`plane_offset1 / hstride` of lines 261-263 being evaluated with a zero
plane-0 stride (undefined behaviour in the C); `setInfoFailed` is
`gst_set_rga_info` returning FALSE (line 265-267). -/
inductive BuildError where
  | divByZero
  | setInfoFailed
  deriving DecidableEq, Repr

/-- Result of `gst_rga_info_from_video_frame`: the filled descriptor and
whether a host mapping of the buffer was acquired. -/
structure BuildResult where
  info : rga_info_t
  mapped : Bool
  deriving DecidableEq, Repr

/-- Embedding of `gst_rga_info_from_video_frame` (lines 251-284).  The
vertical stride is the frame height for a single-plane frame, otherwise
`plane_offset1 / stride0`; the division is guarded here, erroring exactly
where the C divides by zero.  After `gst_set_rga_info` succeeds, a single
zero-offset dmabuf memory exports its fd; when `fd <= 0` the buffer is
host-mapped and `virAddr` takes `mapInfo.data` (NULL when the map call did
not produce data). -/
def gst_rga_info_from_video_frame (info : rga_info_t)
    (frame : GstVideoFrame) : Except BuildError BuildResult :=
  let rga_format := gst_gst_format_to_rga_format frame.format
  let hstride := frame.stride0
  let vstride? := if frame.n_planes = 1 then some frame.height
                  else if hstride = 0 then none
                  else some (frame.plane_offset1 / hstride)
  match vstride? with
  | none => .error .divByZero
  | some vstride =>
    match gst_set_rga_info info rga_format frame.width frame.height
        hstride vstride with
    | none => .error .setInfoFailed
    | some info1 =>
      let info2 :=
        match frame.memories with
        | [mem] =>
          if mem.is_dmabuf ∧ mem.offset = 0
          then { info1 with fd := mem.dmabuf_fd } else info1
        | _ => info1
      if info2.fd ≤ 0 then
        .ok { info := { info2 with
                        virAddr := if frame.map_ok
                                   then some frame.map_addr else none },
              mapped := frame.map_ok }
      else .ok { info := info2, mapped := false }

/-- Embedding of `gst_rga_video_convert_set_info` (lines 393-411), reduced
to the decision it takes on the two negotiated formats.  The condition is
the source's literally: both disjuncts of lines 404-405 test `in_format`. -/
def gst_rga_video_convert_set_info
    (in_format out_format : GstVideoFormat) : Bool :=
  if gst_gst_format_to_rga_format in_format = RgaSURF_FORMAT.UNKNOWN ∨
     gst_gst_format_to_rga_format in_format = RgaSURF_FORMAT.UNKNOWN
  then false
  else true

/-- Flow return of the per-frame transform. -/
inductive GstFlowReturn where
  | OK
  | ERROR
  deriving DecidableEq, Repr

/-- Observable trace of one `transform_frame` call: the flow return,
which host mappings were acquired during descriptor construction, and for
which frames `gst_buffer_unmap` was reached. -/
structure TransformTrace where
  flow : GstFlowReturn
  srcMapped : Bool
  dstMapped : Bool
  srcUnmapped : Bool
  dstUnmapped : Bool
  deriving DecidableEq, Repr

/-- Embedding of `gst_rga_video_convert_transform_frame` (lines 414-457).
The blit is external hardware; `blit_ok` is its reported outcome.  Both
builds start from zero-initialised descriptors; a failed source build
returns before the destination build, a failed destination build returns
before the unmap calls at lines 449-450, which otherwise run
unconditionally after the blit. -/
def gst_rga_video_convert_transform_frame (inframe outframe : GstVideoFrame)
    (blit_ok : Bool) : TransformTrace :=
  match gst_rga_info_from_video_frame rga_info_zero inframe with
  | .error _ =>
    { flow := .ERROR, srcMapped := false, dstMapped := false,
      srcUnmapped := false, dstUnmapped := false }
  | .ok src =>
    match gst_rga_info_from_video_frame rga_info_zero outframe with
    | .error _ =>
      { flow := .ERROR, srcMapped := src.mapped, dstMapped := false,
        srcUnmapped := false, dstUnmapped := false }
    | .ok dst =>
      { flow := if blit_ok then .OK else .ERROR,
        srcMapped := src.mapped, dstMapped := dst.mapped,
        srcUnmapped := true, dstUnmapped := true }

/-- An integer range value, as in `GST_TYPE_INT_RANGE`. -/
structure NatRange where
  lo : Nat
  hi : Nat
  deriving DecidableEq, Repr

/-- A caps structure as this element reads and writes it: the width and
height ranges it overwrites, the three fields it may remove (`none` is an
absent field), and two representative further fields (framerate,
interlace-mode) it never touches. -/
structure GstStructureM where
  width : NatRange
  height : NatRange
  format : Option Nat
  colorimetry : Option Nat
  chroma_site : Option Nat
  framerate : Option Nat
  interlace_mode : Option Nat
  deriving DecidableEq, Repr

/-- One structure of a caps together with its features;
`anyFeatures` is `gst_caps_features_is_any`. -/
structure CapsEntry where
  st : GstStructureM
  anyFeatures : Bool
  deriving DecidableEq, Repr

/-- A caps value: an ordered list of structures with features. -/
abbrev GstCapsM : Type := List CapsEntry

/-- Pad direction of the caps handed to `transform_caps`. -/
inductive GstPadDirection where
  | SRC
  | SINK
  deriving DecidableEq, Repr

/-- Containment of one fixed-or-absent field: a superset structure with the
field fixed requires the same value below, an absent field allows any. -/
def fieldCovers (sup sub : Option Nat) : Bool :=
  match sup with
  | none => true
  | some v => sub = some v

/-- Range containment. -/
def rangeCovers (sup sub : NatRange) : Bool :=
  decide (sup.lo ≤ sub.lo ∧ sub.hi ≤ sup.hi)

/-- Structure containment: every constraint of `sup` holds of `sub`. -/
def structCovers (sup sub : GstStructureM) : Bool :=
  rangeCovers sup.width sub.width && rangeCovers sup.height sub.height &&
  fieldCovers sup.format sub.format &&
  fieldCovers sup.colorimetry sub.colorimetry &&
  fieldCovers sup.chroma_site sub.chroma_site &&
  fieldCovers sup.framerate sub.framerate &&
  fieldCovers sup.interlace_mode sub.interlace_mode

/-- Entry containment with features: equal features, or an any-features
superset, as `gst_caps_is_subset` treats features. -/
def entryCovers (sup sub : CapsEntry) : Bool :=
  (sup.anyFeatures || (sup.anyFeatures == sub.anyFeatures)) &&
  structCovers sup.st sub.st

/-- Model of `gst_caps_is_subset_structure_full caps structure features`:
some entry of `caps` covers the structure. -/
def gst_caps_is_subset_structure_full (caps : GstCapsM)
    (e : CapsEntry) : Bool :=
  caps.any fun e0 => entryCovers e0 e

/-- The body of the loop of `transform_caps` on one structure
(lines 312-327): copy, overwrite the width and height ranges with
`[1,4096]` for the src direction and `[1,8192]` for the sink direction,
and when the features are not ANY remove the format, colorimetry and
chroma-site fields. -/
def processStructure (direction : GstPadDirection) (e : CapsEntry) :
    CapsEntry :=
  let s := e.st
  let s := if direction = .SRC
           then { s with width := ⟨1, 4096⟩, height := ⟨1, 4096⟩ }
           else { s with width := ⟨1, 8192⟩, height := ⟨1, 8192⟩ }
  let s := if e.anyFeatures then s
           else { s with format := none, colorimetry := none,
                         chroma_site := none }
  { st := s, anyFeatures := e.anyFeatures }

/-- The loop of lines 302-330: `first` is `i = 0`, for which the
subset-dedup test is skipped; processed structures are appended to `ret`
in order. -/
def transformCapsLoop (direction : GstPadDirection) :
    Bool → GstCapsM → GstCapsM → GstCapsM
  | _, ret, [] => ret
  | first, ret, e :: rest =>
    if !first && gst_caps_is_subset_structure_full ret e then
      transformCapsLoop direction false ret rest
    else
      transformCapsLoop direction false (ret ++ [processStructure direction e])
        rest

/-- Intersection of two ranges; `none` when empty. -/
def intersectRange (a b : NatRange) : Option NatRange :=
  if max a.lo b.lo ≤ min a.hi b.hi
  then some ⟨max a.lo b.lo, min a.hi b.hi⟩ else none

/-- Intersection of one fixed-or-absent field; `none` when the two fixed
values disagree. -/
def intersectField (a b : Option Nat) : Option (Option Nat) :=
  match a, b with
  | none, w => some w
  | some v, none => some (some v)
  | some v, some w => if v = w then some (some v) else none

/-- Intersection of two structures, fieldwise; `none` when any field's
intersection is empty. -/
def intersectStruct (a b : GstStructureM) : Option GstStructureM :=
  match intersectRange a.width b.width, intersectRange a.height b.height,
      intersectField a.format b.format,
      intersectField a.colorimetry b.colorimetry,
      intersectField a.chroma_site b.chroma_site,
      intersectField a.framerate b.framerate,
      intersectField a.interlace_mode b.interlace_mode with
  | some w, some h, some f, some c, some cs, some fr, some im =>
    some ⟨w, h, f, c, cs, fr, im⟩
  | _, _, _, _, _, _, _ => none

/-- Intersection of two entries: structures intersect, ANY features
intersected with concrete features yield the concrete ones. -/
def intersectEntry (a b : CapsEntry) : Option CapsEntry :=
  (intersectStruct a.st b.st).map fun s =>
    ⟨s, a.anyFeatures && b.anyFeatures⟩

/-- Modelled from the GStreamer library: semantics of
`gst_caps_intersect_full (caps1, caps2, GST_CAPS_INTERSECT_FIRST)` —
pairwise structure intersection ordered by the first caps. -/
def gst_caps_intersect_first : GstCapsM → GstCapsM → GstCapsM
  | [], _ => []
  | e1 :: rest, caps2 =>
    caps2.filterMap (fun e2 => intersectEntry e1 e2) ++
      gst_caps_intersect_first rest caps2

/-- Embedding of `gst_rga_video_convert_transform_caps` (lines 286-344):
the structure loop, then when a filter is present the intersection with
the filter first (lines 332-339). -/
def gst_rga_video_convert_transform_caps (direction : GstPadDirection)
    (caps : GstCapsM) (filter : Option GstCapsM) : GstCapsM :=
  let ret := transformCapsLoop direction true [] caps
  match filter with
  | some f => gst_caps_intersect_first f ret
  | none => ret

/-- A 1920×1080 semi-planar 4:2:0 frame: 2 planes, plane-0 stride 1920,
plane 1 at byte offset 1920·1080, backed by a single zero-offset dmabuf. -/
def nv12Frame : GstVideoFrame :=
  { format := .NV12, width := 1920, height := 1080, n_planes := 2,
    stride0 := 1920, plane_offset1 := 2073600,
    memories := [⟨true, 0, 7⟩], map_ok := true, map_addr := 4096 }

/-- A 640×480 32-bit RGBA frame: 1 plane, stride 2560 bytes, backed by a
single zero-offset dmabuf. -/
def rgbaFrame : GstVideoFrame :=
  { format := .RGBA, width := 640, height := 480, n_planes := 1,
    stride0 := 2560, plane_offset1 := 0,
    memories := [⟨true, 0, 8⟩], map_ok := true, map_addr := 8192 }

/-- The NV12 frame backed by one non-dmabuf memory block, so its build
takes the host-mapping path. -/
def mappedNv12Frame : GstVideoFrame :=
  { nv12Frame with memories := [⟨false, 0, 0⟩] }

/-- A frame whose format is outside the supported set, so its build fails
in `gst_set_rga_info`. -/
def ayuvFrame : GstVideoFrame :=
  { rgbaFrame with format := .AYUV }

/-- A known-format frame with no usable backing memory: its only memory
block is not dmabuf (no device-exportable handle) and host mapping fails. -/
def noMemFrame : GstVideoFrame :=
  { nv12Frame with memories := [⟨false, 0, 0⟩], map_ok := false }

/-- A multi-plane frame whose plane-0 stride is zero. -/
def zeroStrideFrame : GstVideoFrame :=
  { nv12Frame with stride0 := 0 }

/-- A caps entry with width and height ranges `[1,20000]`, no format,
colorimetry or chroma-site field, and concrete (non-ANY) features. -/
def wideEntry : CapsEntry :=
  ⟨⟨⟨1, 20000⟩, ⟨1, 20000⟩, none, none, none, none, none⟩, false⟩

/-- Every surface format other than the `UNKNOWN` sentinel is classified by
the format switch of `gst_set_rga_info`. -/
theorem rgaFormatClass_isSome_of_ne_unknown :
    ∀ f : RgaSURF_FORMAT, f ≠ .UNKNOWN → (rgaFormatClass f).isSome := by
  decide

/-- A successful `gst_set_rga_info` determines the result completely from
its arguments and the format class. -/
theorem gst_set_rga_info_eq_of_class {info : rga_info_t}
    {fmt : RgaSURF_FORMAT} {ps : Nat} {yuv : Bool} {w h hs vs : Nat}
    {r : rga_info_t}
    (hc : rgaFormatClass fmt = some (ps, yuv))
    (hr : gst_set_rga_info info fmt w h hs vs = some r) :
    r = { info with
          mmuFlag := 1,
          rect := ⟨0, 0, (if yuv then w - w % 2 else w),
                   (if yuv then h - h % 2 else h),
                   (if hs / ps ≥ (if yuv then w - w % 2 else w)
                    then hs / ps else hs),
                   vs, fmt⟩ } := by
  simp only [gst_set_rga_info, hc] at hr
  by_cases hmem : info.fd < 0 ∧ info.virAddr = none
  · rw [if_pos hmem] at hr
    exact absurd hr (by simp)
  · rw [if_neg hmem] at hr
    exact (Option.some.inj hr).symm

/-- A successful `gst_set_rga_info` implies the format is classified. -/
theorem gst_set_rga_info_class {info : rga_info_t} {fmt : RgaSURF_FORMAT}
    {w h hs vs : Nat} {r : rga_info_t}
    (hr : gst_set_rga_info info fmt w h hs vs = some r) :
    ∃ ps yuv, rgaFormatClass fmt = some (ps, yuv) := by
  cases hc : rgaFormatClass fmt with
  | none => simp [gst_set_rga_info, hc] at hr
  | some c => exact ⟨c.1, c.2, by simp [hc]⟩


/-- A successful build carries the rectangle `gst_set_rga_info` wrote: the
fd/virAddr updates that follow it leave `mmuFlag` and the rect untouched. -/
theorem gst_rga_info_from_video_frame_ok {info : rga_info_t}
    {frame : GstVideoFrame} {r : BuildResult}
    (h : gst_rga_info_from_video_frame info frame = .ok r) :
    ∃ vs info1,
      (if frame.n_planes = 1 then some frame.height
       else if frame.stride0 = 0 then none
       else some (frame.plane_offset1 / frame.stride0)) = some vs ∧
      gst_set_rga_info info (gst_gst_format_to_rga_format frame.format)
        frame.width frame.height frame.stride0 vs = some info1 ∧
      r.info.rect = info1.rect ∧ r.info.mmuFlag = info1.mmuFlag := by
  simp only [gst_rga_info_from_video_frame] at h
  rcases hv : (if frame.n_planes = 1 then some frame.height
      else if frame.stride0 = 0 then none
      else some (frame.plane_offset1 / frame.stride0)) with _ | vs
  · rw [hv] at h
    simp at h
  rw [hv] at h
  dsimp only at h
  rcases hs : gst_set_rga_info info (gst_gst_format_to_rga_format frame.format)
      frame.width frame.height frame.stride0 vs with _ | info1
  · rw [hs] at h
    simp at h
  rw [hs] at h
  dsimp only at h
  refine ⟨vs, info1, rfl, hs, ?_⟩
  rcases hmem : frame.memories with _ | ⟨m, _ | ⟨m2, tl⟩⟩ <;>
    rw [hmem] at h <;>
    dsimp only at h <;>
    split_ifs at h <;>
    · injection h with h2
      subst h2
      exact ⟨rfl, rfl⟩

/-- C1: the claim says `SetInfo` validates both the input and the output
format mapping, so a pair whose output format alone is unmapped must fail
setup.  The code of lines 404-405 tests the input format in both
disjuncts: at input NV12 (mapped) and output AYUV (unmapped — its surface
format is `UNKNOWN`), `set_info` returns success, so the unsupported
output pair is let through to the per-frame path. -/
theorem C1_set_info_accepts_unmapped_output_format :
    gst_gst_format_to_rga_format .AYUV = .UNKNOWN ∧
    gst_gst_format_to_rga_format .NV12 ≠ .UNKNOWN ∧
    gst_rga_video_convert_set_info .NV12 .AYUV = true := by
  decide

/-- C2: the claim says every host mapping acquired during descriptor
construction is released before `transform_frame` returns on every exit
path.  With a host-mapped NV12 source frame and a destination frame whose
format is unmapped, the destination build fails and the function returns
at line 440, before the `gst_buffer_unmap` calls of lines 449-450: the
trace shows the source mapping acquired (`srcMapped = true`) and never
released (`srcUnmapped = false`). -/
theorem C2_source_mapping_leaked_when_dst_build_fails :
    gst_rga_video_convert_transform_frame mappedNv12Frame ayuvFrame true =
      { flow := .ERROR, srcMapped := true, dstMapped := false,
        srcUnmapped := false, dstUnmapped := false } := by
  decide

/-- C5: the format map is total and non-`UNKNOWN` on the declared
supported set, `UNKNOWN` outside it, and injective on the supported set. -/
theorem C5_format_map_total_and_injective :
    (∀ f ∈ supportedFormats, gst_gst_format_to_rga_format f ≠ .UNKNOWN) ∧
    (∀ f : GstVideoFormat, f ∉ supportedFormats →
      gst_gst_format_to_rga_format f = .UNKNOWN) ∧
    (∀ f ∈ supportedFormats, ∀ g ∈ supportedFormats,
      gst_gst_format_to_rga_format f = gst_gst_format_to_rga_format g →
      f = g) := by
  decide

/-- C6: a successful `gst_set_rga_info` writes the rectangle with width
and height truncated down to the nearest even value (`w - w % 2`) exactly
when the format's class is the YUV group (`yuv = true` holds precisely for
the nine planar/semi-planar YUV formats of `rgaFormatClass`), and
unchanged for the RGB/RGBA classes (`yuv = false`). -/
theorem C6_yuv_dimensions_truncated_to_even
    (info : rga_info_t) (fmt : RgaSURF_FORMAT) (ps : Nat) (yuv : Bool)
    (w h hs vs : Nat) (r : rga_info_t)
    (hc : rgaFormatClass fmt = some (ps, yuv))
    (hr : gst_set_rga_info info fmt w h hs vs = some r) :
    r.rect.width = (if yuv then w - w % 2 else w) ∧
    r.rect.height = (if yuv then h - h % 2 else h) := by
  rw [gst_set_rga_info_eq_of_class hc hr]
  exact ⟨rfl, rfl⟩

/-- Witness for C6 at a YUV format with odd dimensions: width 1921 is
truncated to 1920, and at an RGB format the width is kept. -/
theorem C6_witness :
    rgaFormatClass .YCbCr_420_SP = some (1, true) ∧
    gst_set_rga_info rga_info_zero .YCbCr_420_SP 1921 1081 1921 1080 =
      some { rga_info_zero with
             mmuFlag := 1,
             rect := ⟨0, 0, 1920, 1080, 1921, 1080, .YCbCr_420_SP⟩ } ∧
    ({ rga_info_zero with
       mmuFlag := 1,
       rect := ⟨0, 0, 1920, 1080, 1921, 1080,
                RgaSURF_FORMAT.YCbCr_420_SP⟩ } : rga_info_t).rect.width =
      (if true then 1921 - 1921 % 2 else 1921) ∧
    ({ rga_info_zero with
       mmuFlag := 1,
       rect := ⟨0, 0, 1920, 1080, 1921, 1080,
                RgaSURF_FORMAT.YCbCr_420_SP⟩ } : rga_info_t).rect.height =
      (if true then 1081 - 1081 % 2 else 1081) :=
  ⟨by decide, by decide,
    C6_yuv_dimensions_truncated_to_even rga_info_zero .YCbCr_420_SP 1 true
      1921 1081 1921 1080 _ (by decide) (by decide)⟩

/-- C10: for every descriptor source and every multi-plane frame whose
plane-0 stride is zero, the vertical-stride computation of lines 261-263
divides by zero: in the embedding the guarded division's error branch is
taken, before the format is even examined. -/
theorem C10_multiplane_zero_stride_divides_by_zero
    (info : rga_info_t) (frame : GstVideoFrame)
    (hp : frame.n_planes ≠ 1) (hs : frame.stride0 = 0) :
    gst_rga_info_from_video_frame info frame = .error .divByZero := by
  simp [gst_rga_info_from_video_frame, hp, hs]

/-- Witness for C10: the NV12 frame with its plane-0 stride zeroed. -/
theorem C10_witness :
    zeroStrideFrame.n_planes ≠ 1 ∧ zeroStrideFrame.stride0 = 0 ∧
    gst_rga_info_from_video_frame rga_info_zero zeroStrideFrame =
      .error .divByZero :=
  ⟨by decide, by decide,
    C10_multiplane_zero_stride_divides_by_zero rga_info_zero zeroStrideFrame
      (by decide) (by decide)⟩

/-- C3 counterexample: a frame with a known format (NV12) but no usable
backing memory — its single memory block is not device-exportable and host
mapping fails — still builds a descriptor (whose `virAddr` is NULL),
instead of failing with an invalid-memory error as the claim states. -/
theorem C3_counterexample_build_accepts_memoryless_frame :
    gst_gst_format_to_rga_format noMemFrame.format ≠ .UNKNOWN ∧
    noMemFrame.memories.all (fun m => !m.is_dmabuf) = true ∧
    noMemFrame.map_ok = false ∧
    gst_rga_info_from_video_frame rga_info_zero noMemFrame =
      .ok { info := { fd := 0, virAddr := none, mmuFlag := 1,
                      rect := ⟨0, 0, 1920, 1080, 1920, 1080,
                               .YCbCr_420_SP⟩, core := 0 },
            mapped := false } :=
  ⟨by decide, by decide, by decide, rfl⟩

/-- C3 (amended): the memory-validity check `fd < 0 && !virAddr` of
line 242 runs before memory-reference selection, against the caller's
zero-initialised descriptor whose fd is 0 (not negative), so it can never
reject on the per-frame path: for every frame with a mapped format (and a
nonzero plane-0 stride when multi-planar), the build returns a descriptor
regardless of whether any usable backing memory exists. -/
theorem C3_build_never_rejects_memory
    (frame : GstVideoFrame)
    (hf : gst_gst_format_to_rga_format frame.format ≠ .UNKNOWN)
    (hv : frame.n_planes = 1 ∨ frame.stride0 ≠ 0) :
    ∃ r, gst_rga_info_from_video_frame rga_info_zero frame = .ok r := by
  obtain ⟨c, hc⟩ :=
    Option.isSome_iff_exists.mp (rgaFormatClass_isSome_of_ne_unknown _ hf)
  simp only [gst_rga_info_from_video_frame]
  obtain ⟨vs, hvs⟩ : ∃ vs,
      (if frame.n_planes = 1 then some frame.height
       else if frame.stride0 = 0 then none
       else some (frame.plane_offset1 / frame.stride0)) = some vs := by
    rcases hv with h | h
    · exact ⟨frame.height, by simp [h]⟩
    · by_cases hp : frame.n_planes = 1
      · exact ⟨frame.height, by simp [hp]⟩
      · exact ⟨frame.plane_offset1 / frame.stride0, by simp [hp, h]⟩
  rw [hvs]
  dsimp only
  obtain ⟨info1, hs⟩ : ∃ info1,
      gst_set_rga_info rga_info_zero
        (gst_gst_format_to_rga_format frame.format)
        frame.width frame.height frame.stride0 vs = some info1 := by
    obtain ⟨ps, yuv⟩ := c
    simp only [gst_set_rga_info, hc]
    rw [if_neg]
    · exact ⟨_, rfl⟩
    · simp [rga_info_zero]
  rw [hs]
  dsimp only
  rcases hm : frame.memories with _ | ⟨m, _ | ⟨m2, tl⟩⟩ <;>
    dsimp only <;> split_ifs <;> exact ⟨_, rfl⟩

/-- Witness for the amended C3 at the memoryless frame itself. -/
theorem C3_witness :
    gst_gst_format_to_rga_format noMemFrame.format ≠ .UNKNOWN ∧
    (noMemFrame.n_planes = 1 ∨ noMemFrame.stride0 ≠ 0) ∧
    ∃ r, gst_rga_info_from_video_frame rga_info_zero noMemFrame = .ok r :=
  ⟨by decide, by decide,
    C3_build_never_rejects_memory noMemFrame (by decide) (by decide)⟩

/-- C7: the 1920×1080 semi-planar 4:2:0 frame (2 planes, stride 1920)
builds the source rectangle (0,0,1920,1080,1920,1080) and the 640×480
32-bit RGBA frame (1 plane, stride 2560) the destination rectangle
(0,0,640,480,640,480); in general the written horizontal stride is
`hstride / pixelByteWidth` exactly when that quotient is at least the
(truncated) width and the raw `hstride` otherwise, and the written
vertical stride is the frame height for single-plane frames and
`plane_offset1 / stride0` for multi-plane frames. -/
theorem C7_end_to_end_rectangles :
    (gst_rga_info_from_video_frame rga_info_zero nv12Frame =
      .ok { info := { fd := 7, virAddr := none, mmuFlag := 1,
                      rect := ⟨0, 0, 1920, 1080, 1920, 1080,
                               .YCbCr_420_SP⟩, core := 0 },
            mapped := false }) ∧
    (gst_rga_info_from_video_frame rga_info_zero rgbaFrame =
      .ok { info := { fd := 8, virAddr := none, mmuFlag := 1,
                      rect := ⟨0, 0, 640, 480, 640, 480,
                               .RGBA_8888⟩, core := 0 },
            mapped := false }) ∧
    (∀ (info : rga_info_t) (fmt : RgaSURF_FORMAT) (ps : Nat) (yuv : Bool)
       (w h hs vs : Nat) (r : rga_info_t),
       rgaFormatClass fmt = some (ps, yuv) →
       gst_set_rga_info info fmt w h hs vs = some r →
       r.rect.wstride =
         (if hs / ps ≥ r.rect.width then hs / ps else hs) ∧
       r.rect.hstride = vs) ∧
    (∀ (info : rga_info_t) (frame : GstVideoFrame) (r : BuildResult),
       frame.n_planes = 1 →
       gst_rga_info_from_video_frame info frame = .ok r →
       r.info.rect.hstride = frame.height) ∧
    (∀ (info : rga_info_t) (frame : GstVideoFrame) (r : BuildResult),
       frame.n_planes ≠ 1 → frame.stride0 ≠ 0 →
       gst_rga_info_from_video_frame info frame = .ok r →
       r.info.rect.hstride = frame.plane_offset1 / frame.stride0) := by
  refine ⟨rfl, rfl, ?_, ?_, ?_⟩
  · intro info fmt ps yuv w h hs vs r hc hr
    rw [gst_set_rga_info_eq_of_class hc hr]
    exact ⟨rfl, rfl⟩
  · intro info frame r hp h
    obtain ⟨vs, info1, hv, hs, hrect, _⟩ := gst_rga_info_from_video_frame_ok h
    rw [if_pos hp] at hv
    obtain rfl := Option.some.inj hv
    obtain ⟨ps, yuv, hc⟩ := gst_set_rga_info_class hs
    rw [hrect, gst_set_rga_info_eq_of_class hc hs]
  · intro info frame r hp hz h
    obtain ⟨vs, info1, hv, hs, hrect, _⟩ := gst_rga_info_from_video_frame_ok h
    rw [if_neg hp, if_neg hz] at hv
    obtain rfl := Option.some.inj hv
    obtain ⟨ps, yuv, hc⟩ := gst_set_rga_info_class hs
    rw [hrect, gst_set_rga_info_eq_of_class hc hs]

/-- Every entry of the negotiation loop's output is either from the
accumulator or the processed image of an input entry. -/
theorem transformCapsLoop_mem (direction : GstPadDirection) :
    ∀ (caps ret : GstCapsM) (first : Bool) (e : CapsEntry),
      e ∈ transformCapsLoop direction first ret caps →
      e ∈ ret ∨ ∃ e0 ∈ caps, e = processStructure direction e0 := by
  intro caps
  induction caps with
  | nil =>
    intro ret first e h
    rw [transformCapsLoop] at h
    exact Or.inl h
  | cons a rest ih =>
    intro ret first e h
    rw [transformCapsLoop] at h
    by_cases hc : (!first && gst_caps_is_subset_structure_full ret a) = true
    · rw [if_pos hc] at h
      rcases ih ret false e h with h' | ⟨e0, he0, he⟩
      · exact Or.inl h'
      · exact Or.inr ⟨e0, List.mem_cons_of_mem _ he0, he⟩
    · rw [if_neg hc] at h
      rcases ih _ false e h with h' | ⟨e0, he0, he⟩
      · rcases List.mem_append.mp h' with h2 | h2
        · exact Or.inl h2
        · exact Or.inr ⟨a, List.mem_cons_self _ _, by simpa using h2⟩
      · exact Or.inr ⟨e0, List.mem_cons_of_mem _ he0, he⟩

/-- C4: every entry negotiated without a filter has its width and height
ranges clamped to `[1,4096]` toward the source and `[1,8192]` toward the
sink; on the single `[1,20000]`-ranged input the results are exactly those
ranges. -/
theorem C4_negotiation_clamps_ranges :
    (∀ (direction : GstPadDirection) (caps : GstCapsM) (e : CapsEntry),
       e ∈ gst_rga_video_convert_transform_caps direction caps none →
       e.st.width = (if direction = .SRC then ⟨1, 4096⟩ else ⟨1, 8192⟩) ∧
       e.st.height = (if direction = .SRC then ⟨1, 4096⟩ else ⟨1, 8192⟩)) ∧
    gst_rga_video_convert_transform_caps .SRC [wideEntry] none =
      [⟨⟨⟨1, 4096⟩, ⟨1, 4096⟩, none, none, none, none, none⟩, false⟩] ∧
    gst_rga_video_convert_transform_caps .SINK [wideEntry] none =
      [⟨⟨⟨1, 8192⟩, ⟨1, 8192⟩, none, none, none, none, none⟩, false⟩] := by
  refine ⟨?_, by decide, by decide⟩
  intro direction caps e h
  have h' : e ∈ transformCapsLoop direction true [] caps := h
  rcases transformCapsLoop_mem direction caps [] true e h' with h2 | ⟨e0, _, he⟩
  · simp at h2
  · subst he
    cases direction <;> by_cases hf : e0.anyFeatures <;>
      simp [processStructure, hf]

/-- C8: the per-entry negotiation step removes the format, colorimetry
and chroma-site fields exactly when the entry's features are not the ANY
wildcard, leaves them untouched when they are, and never changes the
remaining fields or the features; and every negotiated entry is such a
processed image of an input entry. -/
theorem C8_field_removal_gated_on_features :
    (∀ (direction : GstPadDirection) (e : CapsEntry),
       (processStructure direction e).st.format =
         (if e.anyFeatures then e.st.format else none) ∧
       (processStructure direction e).st.colorimetry =
         (if e.anyFeatures then e.st.colorimetry else none) ∧
       (processStructure direction e).st.chroma_site =
         (if e.anyFeatures then e.st.chroma_site else none) ∧
       (processStructure direction e).st.framerate = e.st.framerate ∧
       (processStructure direction e).st.interlace_mode =
         e.st.interlace_mode ∧
       (processStructure direction e).anyFeatures = e.anyFeatures) ∧
    (∀ (direction : GstPadDirection) (caps : GstCapsM) (e : CapsEntry),
       e ∈ gst_rga_video_convert_transform_caps direction caps none →
       ∃ e0 ∈ caps, e = processStructure direction e0) := by
  constructor
  · intro direction e
    cases direction <;> by_cases hf : e.anyFeatures <;>
      simp [processStructure, hf]
  · intro direction caps e h
    have h' : e ∈ transformCapsLoop direction true [] caps := h
    rcases transformCapsLoop_mem direction caps [] true e h' with h2 | he
    · simp at h2
    · exact he

/-- A nonempty range intersection is contained in both ranges. -/
theorem intersectRange_covers {a b r : NatRange}
    (h : intersectRange a b = some r) :
    rangeCovers a r = true ∧ rangeCovers b r = true := by
  unfold intersectRange at h
  split_ifs at h with hle
  obtain rfl := Option.some.inj h
  constructor <;> simp [rangeCovers]

/-- A successful field intersection satisfies both fields' constraints. -/
theorem intersectField_covers {a b f : Option Nat}
    (h : intersectField a b = some f) :
    fieldCovers a f = true ∧ fieldCovers b f = true := by
  rcases a with _ | v <;> rcases b with _ | w <;>
    simp only [intersectField] at h
  · obtain rfl := Option.some.inj h
    simp [fieldCovers]
  · obtain rfl := Option.some.inj h
    simp [fieldCovers]
  · obtain rfl := Option.some.inj h
    simp [fieldCovers]
  · split_ifs at h with hvw
    obtain rfl := Option.some.inj h
    subst hvw
    simp [fieldCovers]

/-- A successful structure intersection is covered by both structures. -/
theorem intersectStruct_covers {a b s : GstStructureM}
    (h : intersectStruct a b = some s) :
    structCovers a s = true ∧ structCovers b s = true := by
  unfold intersectStruct at h
  rcases h1 : intersectRange a.width b.width with _ | w <;>
    rcases h2 : intersectRange a.height b.height with _ | x <;>
    rcases h3 : intersectField a.format b.format with _ | f <;>
    rcases h4 : intersectField a.colorimetry b.colorimetry with _ | c <;>
    rcases h5 : intersectField a.chroma_site b.chroma_site with _ | cs <;>
    rcases h6 : intersectField a.framerate b.framerate with _ | fr <;>
    rcases h7 : intersectField a.interlace_mode b.interlace_mode with _ | im <;>
    rw [h1, h2, h3, h4, h5, h6, h7] at h <;>
    dsimp only at h <;>
    first
      | exact Option.noConfusion h
      | · obtain rfl := Option.some.inj h
          constructor
          · simp only [structCovers, Bool.and_eq_true]
            exact ⟨⟨⟨⟨⟨⟨(intersectRange_covers h1).1,
              (intersectRange_covers h2).1⟩, (intersectField_covers h3).1⟩,
              (intersectField_covers h4).1⟩, (intersectField_covers h5).1⟩,
              (intersectField_covers h6).1⟩, (intersectField_covers h7).1⟩
          · simp only [structCovers, Bool.and_eq_true]
            exact ⟨⟨⟨⟨⟨⟨(intersectRange_covers h1).2,
              (intersectRange_covers h2).2⟩, (intersectField_covers h3).2⟩,
              (intersectField_covers h4).2⟩, (intersectField_covers h5).2⟩,
              (intersectField_covers h6).2⟩, (intersectField_covers h7).2⟩

/-- A successful entry intersection is covered by both entries. -/
theorem intersectEntry_covers {a b e : CapsEntry}
    (h : intersectEntry a b = some e) :
    entryCovers a e = true ∧ entryCovers b e = true := by
  unfold intersectEntry at h
  rcases hs : intersectStruct a.st b.st with _ | s <;> rw [hs] at h
  · simp at h
  · obtain rfl := Option.some.inj (by simpa using h)
    have hc := intersectStruct_covers hs
    cases ha : a.anyFeatures <;> cases hb : b.anyFeatures <;>
      simp [entryCovers, ha, hb, hc.1, hc.2]

/-- Every entry of the intersection comes from a pair of entries of the
two caps whose intersection it is. -/
theorem mem_gst_caps_intersect_first {caps1 caps2 : GstCapsM} {e : CapsEntry}
    (h : e ∈ gst_caps_intersect_first caps1 caps2) :
    ∃ e1 ∈ caps1, ∃ e2 ∈ caps2, intersectEntry e1 e2 = some e := by
  induction caps1 with
  | nil => simp [gst_caps_intersect_first] at h
  | cons a rest ih =>
    rw [gst_caps_intersect_first] at h
    rcases List.mem_append.mp h with h' | h'
    · obtain ⟨e2, he2, heq⟩ := List.mem_filterMap.mp h'
      exact ⟨a, List.mem_cons_self _ _, e2, he2, heq⟩
    · obtain ⟨e1, he1, e2, he2, heq⟩ := ih h'
      exact ⟨e1, List.mem_cons_of_mem _ he1, e2, he2, heq⟩

/-- C9: with a filter present, every entry of the negotiated result is
covered both by some entry of the unfiltered negotiated result and by
some entry of the filter — the filtered result is a subset of both. -/
theorem C9_filtered_negotiation_subset_of_both
    (direction : GstPadDirection) (caps f : GstCapsM) (e : CapsEntry)
    (h : e ∈ gst_rga_video_convert_transform_caps direction caps (some f)) :
    (∃ s ∈ gst_rga_video_convert_transform_caps direction caps none,
       entryCovers s e = true) ∧
    (∃ s ∈ f, entryCovers s e = true) := by
  have h' : e ∈ gst_caps_intersect_first f
      (transformCapsLoop direction true [] caps) := h
  obtain ⟨e1, he1, e2, he2, heq⟩ := mem_gst_caps_intersect_first h'
  have hc := intersectEntry_covers heq
  exact ⟨⟨e2, he2, hc.2⟩, ⟨e1, he1, hc.1⟩⟩

/-- Witness for C9: negotiating the `[1,20000]` entry toward the source
with itself as the filter yields the clamped entry, which is covered by
the unfiltered result and by the filter. -/
theorem C9_witness :
    (⟨⟨⟨1, 4096⟩, ⟨1, 4096⟩, none, none, none, none, none⟩, false⟩ :
        CapsEntry) ∈
      gst_rga_video_convert_transform_caps .SRC [wideEntry]
        (some [wideEntry]) ∧
    ((∃ s ∈ gst_rga_video_convert_transform_caps .SRC [wideEntry] none,
        entryCovers s
          ⟨⟨⟨1, 4096⟩, ⟨1, 4096⟩, none, none, none, none, none⟩, false⟩ =
          true) ∧
     (∃ s ∈ [wideEntry],
        entryCovers s
          ⟨⟨⟨1, 4096⟩, ⟨1, 4096⟩, none, none, none, none, none⟩, false⟩ =
          true)) :=
  ⟨by decide,
    C9_filtered_negotiation_subset_of_both .SRC [wideEntry] [wideEntry] _
      (by decide)⟩
